import Mathlib

/-!
Verification development for the ADMIN-FIXLY-TALLER multi-tenant admin API.

The definitions below are a shallow embedding of the TypeScript source:

* `src/api/src/types.ts`           — data model and the `rolePermissions` table
* `src/api/src/middleware/auth.ts` — `verifyToken`, `authMiddleware`,
  `requirePermission`, `requireSuperAdmin`, `requireAdmin`, `requireActiveTenant`
* `src/api/src/utils/helpers.ts`   — `createAuditLog`
* `src/api/src/routes/payments.ts` — list / refund handlers
* `src/api/src/routes/operations.ts` — orders list handler
* `src/api/src/routes/audit.ts`    — audit list handler
* `src/api/src/routes/tenants.ts`  — create / update / suspend / activate
* `src/api/src/routes/auth.ts`     — public signup
* `src/api/src/routes/webhooks.ts` — webhook audit insert

Conventions of the embedding:

* Wall-clock time (`Date.now()`, SQLite `datetime('now')`) is passed in
  explicitly as a `Nat` (milliseconds).
* `crypto.randomUUID()` (`generateId`) is nondeterministic, so freshly
  generated ids are passed in as explicit `String` parameters.
* The D1 database is explicit state: a table is a `List` of row structures,
  and handlers are functions from state to state (plus an HTTP-level result).
* JSON object values stored in audit rows (`JSON.stringify(...)`) are
  modelled by value as association lists of string fields (`JsonObj`);
  only string-valued fields appear in the objects the claims mention.
* Enumerated status columns are stored as `String`, exactly as in the
  SQLite schema and in the TypeScript comparisons (`status !== 'approved'`).
* List handlers are modelled up to their WHERE-clause scoping and ORDER BY;
  pagination (`LIMIT ? OFFSET ?`) and the caller-chosen sort column of the
  payments/orders lists are orthogonal to the claims and are omitted.
-/

/-- Embedding of `UserRole` from `src/api/src/types.ts`. -/
inductive UserRole
  | superadmin
  | admin
  | operator
  | viewer
deriving DecidableEq, Repr

/-- Embedding of `User` from `src/api/src/types.ts` (scalar fields used by the handlers;
`password_hash`, `avatar`, timestamps are never consulted by the modelled
code paths and are omitted). -/
structure User where
  id : String
  email : String
  name : String
  role : UserRole
  tenant_id : Option String
  active : Bool
deriving DecidableEq, Repr

/-- Embedding of `Tenant` from `src/api/src/types.ts` (scalar fields; `trial_ends_at`,
`created_at`, `updated_at` are ISO instants modelled as milliseconds). -/
structure Tenant where
  id : String
  name : String
  slug : String
  email : String
  phone : Option String
  plan : String
  status : String
  trial_ends_at : Option Nat
  max_users : Nat
  max_locations : Nat
  created_at : Nat
  updated_at : Nat
deriving DecidableEq, Repr

/-- Embedding of `Payment` from `src/api/src/types.ts` (fields consulted by the
payments routes). -/
structure Payment where
  id : String
  tenant_id : String
  amount : Nat
  currency : String
  status : String
  created_at : Nat
  updated_at : Nat
deriving DecidableEq, Repr

/-- A work order row (`orders` table) as consulted by
`src/api/src/routes/operations.ts`. -/
structure Order where
  id : String
  tenant_id : String
  status : String
  location_id : Option String
  created_at : Nat
deriving DecidableEq, Repr

/-- A JSON object with string-valued fields, stored by value
(the image of `JSON.stringify` on the objects the handlers pass). -/
abbrev JsonObj := List (String × String)

/-- Embedding of `AuditLog` from `src/api/src/types.ts` / the `audit_logs` table. -/
structure AuditLog where
  id : String
  tenant_id : Option String
  user_id : String
  user_name : String
  user_email : String
  action : String
  resource_type : String
  resource_id : Option String
  old_value : Option JsonObj
  new_value : Option JsonObj
  ip_address : Option String
  user_agent : Option String
  created_at : Nat
deriving DecidableEq, Repr

/-- Embedding of `rolePermissions` from `src/api/src/types.ts`: the static
role → capability-list table. In TypeScript this is a
`Record<UserRole, string[]>`; as a total function on the closed role
enumeration the runtime fallback `rolePermissions[user.role] || []`
never fires. -/
def rolePermissions : UserRole → List String
  | .superadmin =>
      ["tenants:read", "tenants:write", "tenants:delete",
       "users:read", "users:write", "users:delete", "users:invite",
       "payments:read", "payments:refund",
       "operations:read", "operations:export",
       "audit:read", "audit:export",
       "config:read", "config:write",
       "mercadopago:read", "mercadopago:write"]
  | .admin =>
      ["users:read", "users:write", "users:invite",
       "payments:read",
       "operations:read", "operations:export",
       "audit:read",
       "config:read", "config:write",
       "mercadopago:read", "mercadopago:write"]
  | .operator =>
      ["users:read",
       "payments:read",
       "operations:read",
       "audit:read"]
  | .viewer =>
      ["users:read",
       "payments:read",
       "operations:read"]

/-- Outcome of a middleware gate: continue to the handler, or short-circuit
with an HTTP rejection. -/
inductive MwResult
  | pass
  | unauthorized
  | forbidden (required : String)
deriving DecidableEq, Repr

/-- Embedding of `requirePermission` from `src/api/src/middleware/auth.ts`
(lines 164-180): 401 when no user is attached to the context, 403
`\x7b error: 'Forbidden', required: permission \x7d` when the permission is
not in the role's table entry, otherwise fall through to the handler. -/
def requirePermission (permission : String) (user? : Option User) : MwResult :=
  match user? with
  | none => .unauthorized
  | some user =>
    let userPermissions := rolePermissions user.role
    if permission ∈ userPermissions then .pass
    else .forbidden permission

/-- Embedding of `requireSuperAdmin` from `src/api/src/middleware/auth.ts`
(lines 182-192): 403 unless the context user exists and has role
`superadmin`. -/
def requireSuperAdmin (user? : Option User) : MwResult :=
  match user? with
  | none => .forbidden "superadmin"
  | some user =>
    if user.role = UserRole.superadmin then .pass
    else .forbidden "superadmin"

/-- Embedding of `requireAdmin` from `src/api/src/middleware/auth.ts` (lines 198-221):
superadmin or admin pass; otherwise a principal whose email matches the
configured `ADMIN_BOOTSTRAP_EMAIL` (case-insensitively) passes; everyone
else is rejected 403. -/
def requireAdmin (bootstrapEmail : Option String) (user? : Option User) : MwResult :=
  match user? with
  | none => .forbidden "admin"
  | some user =>
    if user.role = UserRole.superadmin ∨ user.role = UserRole.admin then .pass
    else
      match bootstrapEmail with
      | some be =>
          if be ≠ "" ∧ user.email.toLower = be.toLower then .pass
          else .forbidden "admin"
      | none => .forbidden "admin"

/-- Outcome of the tenant-lifecycle gate `requireActiveTenant`. -/
inductive LifecycleResult
  | next
  | tenantNotFound
  | tenantSuspended (tenantId : String) (tenantName : String)
  | tenantCancelled (tenantId : String)
deriving DecidableEq, Repr

/-- Embedding of `requireActiveTenant` from `src/api/src/middleware/auth.ts`
(lines 228-279): superadmins and principals with no tenant bypass the
gate (the `if (!user.tenant_id)` truthiness test also makes an empty
tenant id bypass); otherwise the tenant row is fetched and a `suspended`
tenant yields
`TENANT_SUSPENDED` (carrying id and name), a `cancelled` tenant yields
`TENANT_CANCELLED` (carrying id), a missing row yields
`TENANT_NOT_FOUND`, and anything else falls through. -/
def requireActiveTenant (user? : Option User) (tenants : List Tenant) :
    LifecycleResult :=
  match user? with
  | none => .next
  | some user =>
    if user.role = UserRole.superadmin then .next
    else
      match user.tenant_id with
      | none => .next
      | some tid =>
        if tid = "" then .next
        else
        match tenants.find? (fun t => t.id = tid) with
        | none => .tenantNotFound
        | some tenant =>
          if tenant.status = "suspended" then
            .tenantSuspended tenant.id tenant.name
          else if tenant.status = "cancelled" then
            .tenantCancelled tenant.id
          else .next

/-- The decoded shape of a bearer token as seen by `verifyToken` in
`src/api/src/middleware/auth.ts`: either the `split('.')` /
`JSON.parse(atob(...))` step fails (malformed), or it yields a claim with a
subject and an optional numeric expiry (seconds since epoch). -/
inductive Credential
  | malformed
  | wellFormed (sub : String) (exp : Option Nat)
deriving DecidableEq, Repr

/-- Embedding of `verifyToken` from `src/api/src/middleware/auth.ts` (lines 107-126):
malformed tokens yield `null`; a well-formed claim is rejected when
`payloadData.exp` is truthy (nonzero) and `Date.now() >= exp * 1000`;
otherwise the subject is returned. The signature is never verified
(the source trusts the payload). -/
def verifyToken (tok : Credential) (now : Nat) : Option String :=
  match tok with
  | .malformed => none
  | .wellFormed sub exp? =>
    match exp? with
    | some exp => if exp ≠ 0 ∧ now ≥ exp * 1000 then none else some sub
    | none => some sub

/-- An HTTP error surfaced to the caller: status code and `error` body
field. -/
structure ErrorResponse where
  status : Nat
  error : String
deriving DecidableEq, Repr

/-- Embedding of `authMiddleware` from `src/api/src/middleware/auth.ts` (lines 128-162).
Inputs: whether the `Authorization` header carries a bearer token, the
decoded token, the current time, the `users` table, and whether the
`UPDATE sessions SET last_activity_at = ...` statement fails (a D1 error).
The update is awaited with no `try`/`catch`, so its failure propagates to
the global `app.onError` handler (`src/api/src/index.ts` lines 70-79),
which answers 500 `Internal server error`; only when it succeeds is the
user attached to the context and the chain continued. -/
def authMiddleware (hasBearer : Bool) (tok : Credential) (now : Nat)
    (users : List User) (updateLastActivityFails : Bool) :
    Except ErrorResponse User :=
  if !hasBearer then .error ⟨401, "Unauthorized"⟩
  else
    match verifyToken tok now with
    | none => .error ⟨401, "Invalid token"⟩
    | some sub =>
      match users.find? (fun u => u.id == sub && u.active) with
      | none => .error ⟨401, "User not found or inactive"⟩
      | some user =>
        if updateLastActivityFails then .error ⟨500, "Internal server error"⟩
        else .ok user

/-- The request-scoped context consulted by `createAuditLog`: the
authenticated user (if any) and the caller's IP / user-agent headers. -/
structure ReqContext where
  user? : Option User
  ip? : Option String
  ua? : Option String
deriving DecidableEq, Repr

/-- Embedding of `createAuditLog` from `src/api/src/utils/helpers.ts` (lines 73-108).
When no user is attached to the context the function returns without
writing anything (`if (!user) return;`). Otherwise it appends one row to
`audit_logs` carrying a by-value snapshot of the actor's identity, the
optional old/new values, the caller IP and user-agent, and the current
time. `generateId()` is passed in as `newId`. -/
def createAuditLog (ctx : ReqContext) (newId : String) (now : Nat)
    (action : String) (resourceType : String) (resourceId : String)
    (oldValue newValue : Option JsonObj)
    (audit_logs : List AuditLog) : List AuditLog :=
  match ctx.user? with
  | none => audit_logs
  | some user =>
    audit_logs ++
      [{ id := newId
         tenant_id := user.tenant_id
         user_id := user.id
         user_name := user.name
         user_email := user.email
         action := action
         resource_type := resourceType
         resource_id := some resourceId
         old_value := oldValue
         new_value := newValue
         ip_address := ctx.ip?
         user_agent := ctx.ua?
         created_at := now }]

/-- The direct `INSERT INTO audit_logs` performed by the MercadoPago
webhook handler, `src/api/src/routes/webhooks.ts` (lines 113-125): it does
not go through `createAuditLog`; it hard-codes the sentinel system actor
(`user_id = 'system'`, name `MercadoPago Webhook`,
email `webhook@mercadopago.com`), no tenant, and records the mapped
status and webhook action as the new value. -/
def webhookAuditInsert (newId : String) (now : Nat) (paymentId : String)
    (status : String) (action : String)
    (audit_logs : List AuditLog) : List AuditLog :=
  audit_logs ++
    [{ id := newId
       tenant_id := none
       user_id := "system"
       user_name := "MercadoPago Webhook"
       user_email := "webhook@mercadopago.com"
       action := "payment.webhook"
       resource_type := "payment"
       resource_id := some paymentId
       old_value := none
       new_value := some [("status", status), ("action", action)]
       ip_address := none
       user_agent := none
       created_at := now }]

/-- Result of a list endpoint: the rows that the WHERE clause admits, or a
middleware rejection. -/
inductive ListResult (α : Type)
  | rows (data : List α)
  | unauthorized
  | forbidden (required : String)
deriving DecidableEq, Repr

/-- The WHERE clause built by the payments list handler
(`src/api/src/routes/payments.ts` lines 23-48): non-superadmins get
`tenant_id = user.tenant_id` appended unconditionally (the requested
`tenantId` query parameter is consulted only in the superadmin branch);
then optional `status` / `dateFrom` / `dateTo` conjuncts. The SQL
comparison `tenant_id = ?` with a NULL binding matches no row, which the
`user.tenant_id = some p.tenant_id` comparison reproduces. -/
def paymentsWhere (user : User) (tenantId? status? : Option String)
    (dateFrom? dateTo? : Option Nat) (p : Payment) : Bool :=
  (if user.role ≠ UserRole.superadmin then user.tenant_id == some p.tenant_id
   else match tenantId? with
        | some tid => p.tenant_id == tid
        | none => true) &&
  (match status? with | some s => p.status == s | none => true) &&
  (match dateFrom? with | some d => decide (d ≤ p.created_at) | none => true) &&
  (match dateTo? with | some d => decide (p.created_at ≤ d) | none => true)

/-- Embedding of the `GET /admin/payments` list handler (`src/api/src/routes/payments.ts`
lines 15-70), behind `requirePermission('payments:read')`; returns the
rows admitted by `paymentsWhere` (pagination and caller-chosen sort
column omitted — the claims concern the tenant scoping). -/
def paymentsList (user? : Option User) (tenantId? status? : Option String)
    (dateFrom? dateTo? : Option Nat) (payments : List Payment) :
    ListResult Payment :=
  match user? with
  | none => .unauthorized
  | some user =>
    match requirePermission "payments:read" (some user) with
    | .pass =>
        .rows (payments.filter (paymentsWhere user tenantId? status? dateFrom? dateTo?))
    | .unauthorized => .unauthorized
    | .forbidden r => .forbidden r

/-- The WHERE clause of the orders list handler
(`src/api/src/routes/operations.ts` lines 23-53): same shape as the
payments one, plus an optional `locationId` conjunct. -/
def ordersWhere (user : User) (tenantId? status? locationId? : Option String)
    (dateFrom? dateTo? : Option Nat) (o : Order) : Bool :=
  (if user.role ≠ UserRole.superadmin then user.tenant_id == some o.tenant_id
   else match tenantId? with
        | some tid => o.tenant_id == tid
        | none => true) &&
  (match status? with | some s => o.status == s | none => true) &&
  (match locationId? with | some l => o.location_id == some l | none => true) &&
  (match dateFrom? with | some d => decide (d ≤ o.created_at) | none => true) &&
  (match dateTo? with | some d => decide (o.created_at ≤ d) | none => true)

/-- Embedding of the `GET /admin/operations/orders` list handler
(`src/api/src/routes/operations.ts` lines 14-81), behind
`requirePermission('operations:read')`. -/
def ordersList (user? : Option User)
    (tenantId? status? locationId? : Option String)
    (dateFrom? dateTo? : Option Nat) (orders : List Order) :
    ListResult Order :=
  match user? with
  | none => .unauthorized
  | some user =>
    match requirePermission "operations:read" (some user) with
    | .pass =>
        .rows (orders.filter
          (ordersWhere user tenantId? status? locationId? dateFrom? dateTo?))
    | .unauthorized => .unauthorized
    | .forbidden r => .forbidden r

/-- Stable insertion step for `ORDER BY created_at DESC`: an element moves
ahead of strictly older rows only, so rows with equal `created_at` keep
their relative order. -/
def insertByCreatedAtDesc (x : AuditLog) : List AuditLog → List AuditLog
  | [] => [x]
  | y :: ys =>
      if y.created_at < x.created_at then x :: y :: ys
      else y :: insertByCreatedAtDesc x ys

/-- Application of `ORDER BY created_at DESC` over the filtered audit rows. -/
def sortByCreatedAtDesc : List AuditLog → List AuditLog
  | [] => []
  | x :: xs => insertByCreatedAtDesc x (sortByCreatedAtDesc xs)

/-- The WHERE clause of the audit list handler
(`src/api/src/routes/audit.ts` lines 104-139): non-superadmins see their
tenant's rows plus untenanted rows (`tenant_id = ? OR tenant_id IS NULL`);
a superadmin's `tenantId` parameter filters exactly; then optional
`action` / `userId` / date-range conjuncts (the free-text `search` LIKE
clause is omitted). -/
def auditWhere (user : User) (tenantId? action? userId? : Option String)
    (dateFrom? dateTo? : Option Nat) (r : AuditLog) : Bool :=
  (if user.role ≠ UserRole.superadmin then
     (user.tenant_id == r.tenant_id && !(user.tenant_id == none))
       || r.tenant_id == none
   else match tenantId? with
        | some tid => r.tenant_id == some tid
        | none => true) &&
  (match action? with | some a => r.action == a | none => true) &&
  (match userId? with | some u => r.user_id == u | none => true) &&
  (match dateFrom? with | some d => decide (d ≤ r.created_at) | none => true) &&
  (match dateTo? with | some d => decide (r.created_at ≤ d) | none => true)

/-- Embedding of the `GET /admin/audit` list handler (`src/api/src/routes/audit.ts`
lines 94-168), behind `requirePermission('audit:read')`: filtered rows,
ordered by `created_at DESC` (pagination omitted — the claims concern
the ordering of the result stream). -/
def auditList (user? : Option User) (tenantId? action? userId? : Option String)
    (dateFrom? dateTo? : Option Nat) (audit_logs : List AuditLog) :
    ListResult AuditLog :=
  match user? with
  | none => .unauthorized
  | some user =>
    match requirePermission "audit:read" (some user) with
    | .pass =>
        .rows (sortByCreatedAtDesc
          (audit_logs.filter (auditWhere user tenantId? action? userId? dateFrom? dateTo?)))
    | .unauthorized => .unauthorized
    | .forbidden r => .forbidden r

/-- Database state touched by the refund handler. -/
structure PaymentsState where
  payments : List Payment
  audit_logs : List AuditLog
deriving DecidableEq, Repr

/-- Outcome of `POST /admin/payments/:id/refund`. -/
inductive RefundResult
  | success
  | paymentNotFound
  | notApproved
  | unauthorized
  | forbidden (required : String)
deriving DecidableEq, Repr

/-- Embedding of `POST /admin/payments/:id/refund` (`src/api/src/routes/payments.ts`
lines 95-123), behind `requirePermission('payments:refund')`: 404 when no
payment row matches the id (the fetch has no tenant condition), 400 when
its status is not `approved`; otherwise the row is set to `refunded` and
one audit record `payment.refunded` is appended with
before `\x7b status: 'approved' \x7d` and
after `\x7b status: 'refunded', reason \x7d`. -/
def refundPayment (ctx : ReqContext) (newAuditId : String) (now : Nat)
    (id : String) (reason : String) (st : PaymentsState) :
    RefundResult × PaymentsState :=
  match ctx.user? with
  | none => (.unauthorized, st)
  | some user =>
    match requirePermission "payments:refund" (some user) with
    | .forbidden r => (.forbidden r, st)
    | .unauthorized => (.unauthorized, st)
    | .pass =>
      match st.payments.find? (fun p => p.id = id) with
      | none => (.paymentNotFound, st)
      | some payment =>
        if payment.status ≠ "approved" then (.notApproved, st)
        else
          (.success,
           { payments := st.payments.map (fun p =>
               if p.id = id then { p with status := "refunded", updated_at := now } else p)
             audit_logs := createAuditLog ctx newAuditId now
               "payment.refunded" "payment" id
               (some [("status", "approved")])
               (some [("status", "refunded"), ("reason", reason)])
               st.audit_logs })

/-- Database state touched by the tenant-administration routes. -/
structure TenantsState where
  tenants : List Tenant
  audit_logs : List AuditLog
deriving DecidableEq, Repr

/-- The JSON body accepted by `PUT /admin/tenants/:id`
(`src/api/src/routes/tenants.ts` lines 138-200): each present field is
turned into one `SET` assignment. -/
structure TenantUpdateBody where
  name : Option String
  email : Option String
  phone : Option String
  status : Option String
  plan : Option String
  max_users : Option Nat
  max_locations : Option Nat
deriving DecidableEq, Repr

/-- Check `updates.length === 0`: no field of the body was provided. -/
def TenantUpdateBody.isEmpty (b : TenantUpdateBody) : Bool :=
  b.name.isNone && b.email.isNone && b.phone.isNone && b.status.isNone
    && b.plan.isNone && b.max_users.isNone && b.max_locations.isNone

/-- The `UPDATE tenants SET ...` built by `PUT /admin/tenants/:id`: each
provided field overwrites the column unconditionally (no check against
the current status), plus `updated_at = datetime('now')`. -/
def applyTenantUpdate (b : TenantUpdateBody) (now : Nat) (t : Tenant) : Tenant :=
  { t with
    name := b.name.getD t.name
    email := (b.email.map String.toLower).getD t.email
    phone := match b.phone with | some p => some p | none => t.phone
    status := b.status.getD t.status
    plan := b.plan.getD t.plan
    max_users := b.max_users.getD t.max_users
    max_locations := b.max_locations.getD t.max_locations
    updated_at := now }

/-- The by-value snapshot of a tenant row passed as `old_value` to
`createAuditLog` by the update route (string-valued columns of the row;
numeric and timestamp columns are outside the `JsonObj` model and
omitted — no claim inspects this snapshot). -/
def tenantSnapshot (t : Tenant) : JsonObj :=
  [("id", t.id), ("name", t.name), ("slug", t.slug), ("email", t.email),
   ("plan", t.plan), ("status", t.status)]

/-- The `new_value` snapshot of the update body (provided string fields). -/
def updateBodySnapshot (b : TenantUpdateBody) : JsonObj :=
  (match b.name with | some v => [("name", v)] | none => []) ++
  (match b.email with | some v => [("email", v)] | none => []) ++
  (match b.phone with | some v => [("phone", v)] | none => []) ++
  (match b.status with | some v => [("status", v)] | none => []) ++
  (match b.plan with | some v => [("plan", v)] | none => [])

/-- Embedding of `PUT /admin/tenants/:id` (`src/api/src/routes/tenants.ts`
lines 138-200), behind `requireSuperAdmin`: 404 when the row does not
exist, 400 when the body is empty, otherwise the provided fields are
written unconditionally and one `tenant.updated` audit record is
appended. -/
def updateTenant (ctx : ReqContext) (newAuditId : String) (now : Nat)
    (id : String) (body : TenantUpdateBody) (st : TenantsState) :
    Except ErrorResponse TenantsState :=
  match st.tenants.find? (fun t => t.id = id) with
  | none => .error ⟨404, "Tenant not found"⟩
  | some existing =>
    if body.isEmpty then .error ⟨400, "No fields to update"⟩
    else
      .ok { tenants := st.tenants.map (fun t =>
              if t.id = id then applyTenantUpdate body now t else t)
            audit_logs := createAuditLog ctx newAuditId now
              "tenant.updated" "tenant" id
              (some (tenantSnapshot existing))
              (some (updateBodySnapshot body))
              st.audit_logs }

/-- Embedding of `POST /admin/tenants/:id/suspend` (`src/api/src/routes/tenants.ts`
lines 222-235), behind `requireSuperAdmin`: sets `status = 'suspended'`
unconditionally (no check of the current status, no existence check) and
appends a `tenant.updated` audit record carrying the reason. -/
def suspendTenant (ctx : ReqContext) (newAuditId : String) (now : Nat)
    (id : String) (reason : String) (st : TenantsState) : TenantsState :=
  { tenants := st.tenants.map (fun t =>
      if t.id = id then { t with status := "suspended", updated_at := now } else t)
    audit_logs := createAuditLog ctx newAuditId now
      "tenant.updated" "tenant" id none
      (some [("status", "suspended"), ("reason", reason)])
      st.audit_logs }

/-- Embedding of `POST /admin/tenants/:id/activate` (`src/api/src/routes/tenants.ts`
lines 238-250), behind `requireSuperAdmin`: sets `status = 'active'`
unconditionally — the current status (including `cancelled`) is never
consulted — and appends a `tenant.updated` audit record. -/
def activateTenant (ctx : ReqContext) (newAuditId : String) (now : Nat)
    (id : String) (st : TenantsState) : TenantsState :=
  { tenants := st.tenants.map (fun t =>
      if t.id = id then { t with status := "active", updated_at := now } else t)
    audit_logs := createAuditLog ctx newAuditId now
      "tenant.updated" "tenant" id none
      (some [("status", "active")])
      st.audit_logs }

/-- The tenant row inserted by `POST /admin/tenants`
(`src/api/src/routes/tenants.ts` lines 107-126): status defaults to
`trial` (`body.status || 'trial'`), plan to `starter`, and
`trial_ends_at` is `Date.now() + 15 * 24 * 60 * 60 * 1000` when the body
explicitly requests `status === 'trial'` — and NULL otherwise, including
when the status field is omitted (the ternary tests `body.status`, not
the defaulted value). The slug (`body.slug || slugify(body.name)`) is
resolved by the caller of the model. -/
def adminCreateTenantRow (newId : String) (now : Nat)
    (name email : String) (phone : Option String) (slug : String)
    (bodyStatus bodyPlan : Option String)
    (bodyMaxUsers bodyMaxLocations : Option Nat) : Tenant :=
  { id := newId
    name := name
    slug := slug
    email := email.toLower
    phone := phone
    status := bodyStatus.getD "trial"
    plan := bodyPlan.getD "starter"
    trial_ends_at :=
      if bodyStatus = some "trial" then some (now + 15 * 24 * 60 * 60 * 1000)
      else none
    max_users := bodyMaxUsers.getD 5
    max_locations := bodyMaxLocations.getD 1
    created_at := now
    updated_at := now }

/-- Embedding of `POST /admin/tenants` (`src/api/src/routes/tenants.ts` lines 82-135),
behind `requireSuperAdmin`: 400 when name or email is missing or the slug
already exists; otherwise the row of `adminCreateTenantRow` is inserted
and a `tenant.created` audit record appended. -/
def createTenant (ctx : ReqContext) (newId newAuditId : String) (now : Nat)
    (name? email? : Option String) (phone : Option String) (slug : String)
    (bodyStatus bodyPlan : Option String)
    (bodyMaxUsers bodyMaxLocations : Option Nat) (st : TenantsState) :
    Except ErrorResponse (TenantsState × Tenant) :=
  match name?, email? with
  | some name, some email =>
    if st.tenants.any (fun t => t.slug = slug) then
      .error ⟨400, "Slug already exists"⟩
    else
      let tenant := adminCreateTenantRow newId now name email phone slug
        bodyStatus bodyPlan bodyMaxUsers bodyMaxLocations
      .ok ({ tenants := st.tenants ++ [tenant]
             audit_logs := createAuditLog ctx newAuditId now
               "tenant.created" "tenant" newId none
               (some (("name", name) ::
                 (match bodyPlan with | some p => [("plan", p)] | none => [])))
               st.audit_logs },
           tenant)
  | _, _ => .error ⟨400, "Name and email are required"⟩

/-- The trial expiry computed by `POST /auth/public/signup`
(`src/api/src/routes/auth.ts` lines 229-231):
`trialEndsAt.setDate(trialEndsAt.getDate() + 14)` — 14 calendar days
after creation, which in the UTC runtime is exactly
`14 * 24 * 60 * 60 * 1000` milliseconds. -/
def signupTrialEndsAt (now : Nat) : Nat :=
  now + 14 * 24 * 60 * 60 * 1000

/-- The tenant row inserted by `POST /auth/public/signup`
(`src/api/src/routes/auth.ts` lines 235-248): plan `free`, status
`trial`, `trial_ends_at` = creation + 14 days, quota 3 users /
1 location. -/
def signupTenantRow (tenantId businessName slug email : String)
    (phone : Option String) (now : Nat) : Tenant :=
  { id := tenantId
    name := businessName
    slug := slug
    email := email.toLower
    phone := phone
    plan := "free"
    status := "trial"
    trial_ends_at := some (signupTrialEndsAt now)
    max_users := 3
    max_locations := 1
    created_at := now
    updated_at := now }

/-- Concrete viewer principal of tenant `T1`, used in witnesses. -/
def exampleViewer : User :=
  { id := "u-viewer", email := "viewer@t1.example", name := "Viewer One",
    role := .viewer, tenant_id := some "T1", active := true }

/-- Concrete admin principal of tenant `T1`, used in witnesses. -/
def exampleAdminT1 : User :=
  { id := "u-admin", email := "admin@t1.example", name := "Admin One",
    role := .admin, tenant_id := some "T1", active := true }

/-- Concrete global superadmin (no tenant affiliation). -/
def exampleSuperadmin : User :=
  { id := "u-root", email := "root@fixly.example", name := "Root",
    role := .superadmin, tenant_id := none, active := true }

/-- Concrete approved payment of tenant `T1`. -/
def examplePaymentT1 : Payment :=
  { id := "p1", tenant_id := "T1", amount := 100, currency := "ARS",
    status := "approved", created_at := 1000, updated_at := 1000 }

/-- Concrete approved payment of tenant `T2`. -/
def examplePaymentT2 : Payment :=
  { id := "p2", tenant_id := "T2", amount := 200, currency := "ARS",
    status := "approved", created_at := 2000, updated_at := 2000 }

/-- Concrete pending payment of tenant `T1`. -/
def examplePendingPayment : Payment :=
  { id := "p3", tenant_id := "T1", amount := 50, currency := "ARS",
    status := "pending", created_at := 3000, updated_at := 3000 }

/-- Concrete order rows of tenants `T1` and `T2`. -/
def exampleOrderT1 : Order :=
  { id := "o1", tenant_id := "T1", status := "open",
    location_id := none, created_at := 1000 }

/-- Concrete order row of tenant `T2`. -/
def exampleOrderT2 : Order :=
  { id := "o2", tenant_id := "T2", status := "open",
    location_id := none, created_at := 2000 }

/-- Request context with no authenticated user (system-originated call). -/
def noUserCtx : ReqContext := { user? := none, ip? := none, ua? := none }

/-- Request context carrying the superadmin. -/
def exampleSuperCtx : ReqContext :=
  { user? := some exampleSuperadmin, ip? := none, ua? := none }

/-- Audit record written first (creation time 1000). -/
def exampleAuditW1 : AuditLog :=
  { id := "a1", tenant_id := some "T1", user_id := "u-admin",
    user_name := "Admin One", user_email := "admin@t1.example",
    action := "user.updated", resource_type := "user", resource_id := some "u9",
    old_value := none, new_value := none, ip_address := none,
    user_agent := none, created_at := 1000 }

/-- Audit record written second (creation time 2000). -/
def exampleAuditW2 : AuditLog :=
  { id := "a2", tenant_id := some "T1", user_id := "u-admin",
    user_name := "Admin One", user_email := "admin@t1.example",
    action := "user.updated", resource_type := "user", resource_id := some "u9",
    old_value := none, new_value := none, ip_address := none,
    user_agent := none, created_at := 2000 }

/-- Concrete suspended tenant `T1` (display name `Taller Central`). -/
def exampleSuspendedTenant : Tenant :=
  { id := "T1", name := "Taller Central", slug := "taller-central",
    email := "t1@fixly.example", phone := none, plan := "starter",
    status := "suspended", trial_ends_at := none, max_users := 5,
    max_locations := 1, created_at := 0, updated_at := 0 }

/-- Concrete cancelled tenant `T9`. -/
def exampleCancelledTenant : Tenant :=
  { id := "T9", name := "Taller Cerrado", slug := "taller-cerrado",
    email := "t9@fixly.example", phone := none, plan := "starter",
    status := "cancelled", trial_ends_at := none, max_users := 5,
    max_locations := 1, created_at := 0, updated_at := 0 }

/-- C2: for every role and capability string, `requirePermission` passes
a principal exactly when the capability is listed for the principal's
role in `rolePermissions`, and otherwise rejects with Forbidden carrying
the required capability; there is no superadmin bypass outside the
table. -/
theorem c2_authorize_iff_table (u : User) (cap : String) :
    (requirePermission cap (some u) = MwResult.pass ↔ cap ∈ rolePermissions u.role)
    ∧ (cap ∉ rolePermissions u.role →
        requirePermission cap (some u) = MwResult.forbidden cap) := by
  refine ⟨⟨fun h => ?_, fun h => ?_⟩, fun h => ?_⟩
  · by_contra hmem
    simp [requirePermission, hmem] at h
  · simp [requirePermission, h]
  · simp [requirePermission, h]

/-- Witness for C2: a `viewer` checked against `users:write` is rejected
with `Forbidden("users:write")` (spec scenario 1). -/
theorem c2_authorize_iff_table_witness :
    requirePermission "users:write" (some exampleViewer)
      = MwResult.forbidden "users:write" :=
  (c2_authorize_iff_table exampleViewer "users:write").2 (by decide)

/-- C6: the tenant-lifecycle gate lets superadmins and principals with no
tenant affiliation pass, rejects principals of a suspended tenant with
`TENANT_SUSPENDED` carrying the tenant id and name, and rejects
principals of a cancelled tenant with `TENANT_CANCELLED` carrying the
tenant id. -/
theorem c6_lifecycle_gate (user : User) (tenants : List Tenant) :
    (user.role = UserRole.superadmin →
        requireActiveTenant (some user) tenants = LifecycleResult.next)
    ∧ (user.tenant_id = none →
        requireActiveTenant (some user) tenants = LifecycleResult.next)
    ∧ (∀ tid t, user.role ≠ UserRole.superadmin → user.tenant_id = some tid →
        tid ≠ "" →
        tenants.find? (fun t' => t'.id = tid) = some t →
        (t.status = "suspended" →
          requireActiveTenant (some user) tenants
            = LifecycleResult.tenantSuspended t.id t.name)
        ∧ (t.status = "cancelled" →
          requireActiveTenant (some user) tenants
            = LifecycleResult.tenantCancelled t.id)) := by
  refine ⟨fun hsa => ?_, fun hnone => ?_, fun tid t hrole htid hne hfind => ⟨fun hs => ?_, fun hc => ?_⟩⟩
  · simp [requireActiveTenant, hsa]
  · by_cases hsa : user.role = UserRole.superadmin
    · simp [requireActiveTenant, hsa]
    · simp [requireActiveTenant, hsa, hnone]
  · simp [requireActiveTenant, hrole, htid, hne, hfind, hs]
  · have hns : t.status ≠ "suspended" := by rw [hc]; decide
    simp [requireActiveTenant, hrole, htid, hne, hfind, hc, hns]

/-- Witness for C6: a viewer of suspended tenant `T1` is rejected with
`TenantSuspended(T1, "Taller Central")` (spec scenario 3). -/
theorem c6_lifecycle_gate_witness :
    requireActiveTenant (some exampleViewer) [exampleSuspendedTenant]
      = LifecycleResult.tenantSuspended "T1" "Taller Central" :=
  ((c6_lifecycle_gate exampleViewer [exampleSuspendedTenant]).2.2
      "T1" exampleSuspendedTenant (by decide) rfl (by decide) (by decide)).1 rfl

/-- C1 counterexample: an `admin` of tenant `T1` explicitly requesting
`tenantId=T2` on the payments list does NOT get Forbidden — the handler
answers 200 with the scope silently reassigned to `T1` (only the `T1`
row is returned, the requested `T2` row is dropped). -/
theorem c1_counterexample :
    paymentsList (some exampleAdminT1) (some "T2") none none none
        [examplePaymentT1, examplePaymentT2]
      = ListResult.rows [examplePaymentT1] := by decide

/-- C1 amended: for every non-superadmin principal holding the read
capability, the payments and orders list handlers ignore the requested
`tenantId` entirely and silently force the effective scope to the
principal's own tenant; no tenant-mismatch Forbidden is ever issued. -/
theorem c1_scope_silently_reassigned (user : User)
    (hrole : user.role ≠ UserRole.superadmin)
    (hpay : "payments:read" ∈ rolePermissions user.role)
    (hops : "operations:read" ∈ rolePermissions user.role)
    (tenantId? : Option String) (payments : List Payment) (orders : List Order) :
    paymentsList (some user) tenantId? none none none payments
      = ListResult.rows (payments.filter
          (fun p => user.tenant_id == some p.tenant_id))
    ∧ ordersList (some user) tenantId? none none none none orders
      = ListResult.rows (orders.filter
          (fun o => user.tenant_id == some o.tenant_id)) := by
  constructor
  · have hfun : paymentsWhere user tenantId? none none none
        = fun p => user.tenant_id == some p.tenant_id := by
      funext p
      simp [paymentsWhere, hrole]
    simp [paymentsList, requirePermission, hpay, hfun]
  · have hfun : ordersWhere user tenantId? none none none none
        = fun o => user.tenant_id == some o.tenant_id := by
      funext o
      simp [ordersWhere, hrole]
    simp [ordersList, requirePermission, hops, hfun]

/-- Witness for the amended C1: the admin of `T1` requesting `tenantId=T2`
is served rows filtered to `T1` on both lists. -/
theorem c1_scope_silently_reassigned_witness :
    paymentsList (some exampleAdminT1) (some "T2") none none none
        [examplePaymentT1, examplePaymentT2]
      = ListResult.rows ([examplePaymentT1, examplePaymentT2].filter
          (fun p => exampleAdminT1.tenant_id == some p.tenant_id))
    ∧ ordersList (some exampleAdminT1) (some "T2") none none none none
        [exampleOrderT1, exampleOrderT2]
      = ListResult.rows ([exampleOrderT1, exampleOrderT2].filter
          (fun o => exampleAdminT1.tenant_id == some o.tenant_id)) :=
  c1_scope_silently_reassigned exampleAdminT1 (by decide) (by decide) (by decide)
    (some "T2") [examplePaymentT1, examplePaymentT2] [exampleOrderT1, exampleOrderT2]

/-- Insertion into the descending-by-`created_at` order only produces
elements of the inserted element and the original list. -/
theorem mem_insertByCreatedAtDesc (x z : AuditLog) (l : List AuditLog)
    (hz : z ∈ insertByCreatedAtDesc x l) : z = x ∨ z ∈ l := by
  induction l with
  | nil =>
    simp [insertByCreatedAtDesc] at hz
    exact Or.inl hz
  | cons y ys ih =>
    rw [insertByCreatedAtDesc] at hz
    by_cases hlt : y.created_at < x.created_at
    · rw [if_pos hlt] at hz
      rcases List.mem_cons.mp hz with rfl | hz'
      · exact Or.inl rfl
      · exact Or.inr hz'
    · rw [if_neg hlt] at hz
      rcases List.mem_cons.mp hz with rfl | hz'
      · exact Or.inr (List.mem_cons_self _ _)
      · rcases ih hz' with h | h
        · exact Or.inl h
        · exact Or.inr (List.mem_cons_of_mem _ h)

/-- Inserting into a list sorted by non-increasing `created_at` keeps it
sorted. -/
theorem pairwise_insertByCreatedAtDesc (x : AuditLog) (l : List AuditLog)
    (hl : l.Pairwise (fun a b => b.created_at ≤ a.created_at)) :
    (insertByCreatedAtDesc x l).Pairwise
      (fun a b => b.created_at ≤ a.created_at) := by
  induction l with
  | nil => simp [insertByCreatedAtDesc]
  | cons y ys ih =>
    rw [List.pairwise_cons] at hl
    obtain ⟨hy, hys⟩ := hl
    rw [insertByCreatedAtDesc]
    by_cases hlt : y.created_at < x.created_at
    · rw [if_pos hlt]
      refine List.pairwise_cons.mpr ⟨?_, List.pairwise_cons.mpr ⟨hy, hys⟩⟩
      intro z hz
      rcases List.mem_cons.mp hz with rfl | hz'
      · exact le_of_lt hlt
      · exact le_trans (hy z hz') (le_of_lt hlt)
    · rw [if_neg hlt]
      refine List.pairwise_cons.mpr ⟨?_, ih hys⟩
      intro z hz
      rcases mem_insertByCreatedAtDesc x z ys hz with rfl | hz'
      · exact le_of_not_lt hlt
      · exact hy z hz'

/-- The `ORDER BY created_at DESC` model yields rows in non-increasing
creation-time order. -/
theorem pairwise_sortByCreatedAtDesc (l : List AuditLog) :
    (sortByCreatedAtDesc l).Pairwise
      (fun a b => b.created_at ≤ a.created_at) := by
  induction l with
  | nil => simp [sortByCreatedAtDesc]
  | cons x xs ih =>
    rw [sortByCreatedAtDesc]
    exact pairwise_insertByCreatedAtDesc x _ ih

/-- C3 counterexample: with records W1 (written at 1000) and W2 (written
at 2000), a superadmin's unfiltered audit query returns W2 before W1 —
newest first, not write order as claimed. -/
theorem c3_counterexample :
    auditList (some exampleSuperadmin) none none none none none
        [exampleAuditW1, exampleAuditW2]
      = ListResult.rows [exampleAuditW2, exampleAuditW1] := by decide

/-- C3 amended: the audit list handler returns the filtered records in
reverse chronological order (`ORDER BY created_at DESC`): for any
principal holding `audit:read`, the query answers 200 with rows whose
creation timestamps are non-increasing, so a record written strictly
earlier appears strictly after any later one — the opposite of the
claimed write order; equal-timestamp ties carry no ordering guarantee
from the database. -/
theorem c3_audit_newest_first (user : User)
    (h : "audit:read" ∈ rolePermissions user.role)
    (tenantId? action? userId? : Option String)
    (dateFrom? dateTo? : Option Nat) (logs : List AuditLog) :
    auditList (some user) tenantId? action? userId? dateFrom? dateTo? logs
      = ListResult.rows (sortByCreatedAtDesc (logs.filter
          (auditWhere user tenantId? action? userId? dateFrom? dateTo?)))
    ∧ (sortByCreatedAtDesc (logs.filter
          (auditWhere user tenantId? action? userId? dateFrom? dateTo?))).Pairwise
        (fun a b => b.created_at ≤ a.created_at) := by
  refine ⟨?_, pairwise_sortByCreatedAtDesc _⟩
  simp [auditList, requirePermission, h]

/-- Witness for the amended C3 at the two-record state. -/
theorem c3_audit_newest_first_witness :
    auditList (some exampleSuperadmin) none none none none none
        [exampleAuditW1, exampleAuditW2]
      = ListResult.rows (sortByCreatedAtDesc ([exampleAuditW1, exampleAuditW2].filter
          (auditWhere exampleSuperadmin none none none none none)))
    ∧ (sortByCreatedAtDesc ([exampleAuditW1, exampleAuditW2].filter
          (auditWhere exampleSuperadmin none none none none none))).Pairwise
        (fun a b => b.created_at ≤ a.created_at) :=
  c3_audit_newest_first exampleSuperadmin (by decide) none none none none none
    [exampleAuditW1, exampleAuditW2]

/-- C4 counterexample: invoking the audit recorder with no authenticated
actor in context writes nothing at all — the log stays empty instead of
receiving a sentinel system-actor record. -/
theorem c4_counterexample :
    createAuditLog noUserCtx "a-0" 5000 "payment.webhook" "payment" "123"
        none none []
      = [] := by rfl

/-- C4 amended: `createAuditLog` silently skips the record whenever no
actor is attached to the context (`if (!user) return;`); the sentinel
system-actor audit record for webhook ingestion is written by a separate
direct INSERT in the webhook handler, not by the recorder. -/
theorem c4_recorder_skips_without_actor (ip? ua? : Option String)
    (newId : String) (now : Nat) (action resourceType resourceId : String)
    (oldV newV : Option JsonObj) (logs : List AuditLog)
    (paymentId status webhookAction : String) :
    createAuditLog ⟨none, ip?, ua?⟩ newId now action resourceType resourceId
        oldV newV logs
      = logs
    ∧ webhookAuditInsert newId now paymentId status webhookAction logs
      = logs ++
        [{ id := newId
           tenant_id := none
           user_id := "system"
           user_name := "MercadoPago Webhook"
           user_email := "webhook@mercadopago.com"
           action := "payment.webhook"
           resource_type := "payment"
           resource_id := some paymentId
           old_value := none
           new_value := some [("status", status), ("action", webhookAction)]
           ip_address := none
           user_agent := none
           created_at := now }] :=
  ⟨rfl, rfl⟩

/-- C5 counterexample: administrative activation of a `cancelled` tenant
succeeds and flips its status to `active` — `cancelled` is not a
terminal state. -/
theorem c5_counterexample :
    ((activateTenant exampleSuperCtx "a-5" 7000 "T9"
        { tenants := [exampleCancelledTenant], audit_logs := [] }).tenants.map
      Tenant.status)
      = ["active"] := by rfl

/-- C5 amended: the lifecycle mutators never consult the current status:
activation sets any matched tenant (including a `cancelled` one) to
`active`, suspension sets it to `suspended`, and a status update writes
the requested status verbatim, so no status — in particular not
`cancelled` — is terminal. -/
theorem c5_no_terminal_status (ctx : ReqContext) (aid : String) (now : Nat)
    (id reason s : String) (st : TenantsState) (t : Tenant)
    (hmem : t ∈ st.tenants) (hid : t.id = id) :
    ({ t with status := "active", updated_at := now }
        ∈ (activateTenant ctx aid now id st).tenants)
    ∧ ({ t with status := "suspended", updated_at := now }
        ∈ (suspendTenant ctx aid now id reason st).tenants)
    ∧ (applyTenantUpdate ⟨none, none, none, some s, none, none, none⟩ now t).status
        = s := by
  refine ⟨?_, ?_, rfl⟩
  · have h1 := List.mem_map_of_mem
      (f := fun t' => if t'.id = id
        then { t' with status := "active", updated_at := now } else t') hmem
    simpa [activateTenant, hid] using h1
  · have h1 := List.mem_map_of_mem
      (f := fun t' => if t'.id = id
        then { t' with status := "suspended", updated_at := now } else t') hmem
    simpa [suspendTenant, hid] using h1

/-- Witness for the amended C5 at the concrete cancelled tenant `T9`. -/
theorem c5_no_terminal_status_witness :
    ({ exampleCancelledTenant with status := "active", updated_at := 7000 }
        ∈ (activateTenant exampleSuperCtx "a-5" 7000 "T9"
            { tenants := [exampleCancelledTenant], audit_logs := [] }).tenants)
    ∧ ({ exampleCancelledTenant with status := "suspended", updated_at := 7000 }
        ∈ (suspendTenant exampleSuperCtx "a-5" 7000 "T9" "non-payment"
            { tenants := [exampleCancelledTenant], audit_logs := [] }).tenants)
    ∧ (applyTenantUpdate ⟨none, none, none, some "active", none, none, none⟩ 7000
        exampleCancelledTenant).status = "active" :=
  c5_no_terminal_status exampleSuperCtx "a-5" 7000 "T9" "non-payment" "active"
    { tenants := [exampleCancelledTenant], audit_logs := [] }
    exampleCancelledTenant (by decide) rfl

/-- C7 counterexample: a malformed credential and a well-formed credential
whose subject matches no active principal surface different rejection
bodies (`Invalid token` vs `User not found or inactive`), so the caller
can tell which check failed. -/
theorem c7_counterexample :
    authMiddleware true Credential.malformed 0 [exampleViewer] false
      = Except.error ⟨401, "Invalid token"⟩
    ∧ authMiddleware true (Credential.wellFormed "ghost" none) 0
        [exampleViewer] false
      = Except.error ⟨401, "User not found or inactive"⟩
    ∧ ("Invalid token" : String) ≠ "User not found or inactive" := by
  refine ⟨rfl, rfl, by decide⟩

/-- C7 amended: malformed and expired credentials are indistinguishable to
the caller (both 401 `Invalid token`), but a credential that decodes yet
matches no active principal yields a distinct 401 body
(`User not found or inactive`); only the malformed/expired pair is
merged, not all three failure reasons. -/
theorem c7_auth_failure_distinguishable (now : Nat) (users : List User)
    (sub : String) (exp : Nat) (updFails : Bool)
    (hexp : exp ≠ 0 ∧ exp * 1000 ≤ now)
    (hnf : users.find? (fun u => u.id == sub && u.active) = none) :
    authMiddleware true Credential.malformed now users updFails
      = Except.error ⟨401, "Invalid token"⟩
    ∧ authMiddleware true (Credential.wellFormed sub (some exp)) now users updFails
      = Except.error ⟨401, "Invalid token"⟩
    ∧ authMiddleware true (Credential.wellFormed sub none) now users updFails
      = Except.error ⟨401, "User not found or inactive"⟩ := by
  refine ⟨rfl, ?_, ?_⟩
  · simp [authMiddleware, verifyToken, hexp.1, hexp.2]
  · simp [authMiddleware, verifyToken, hnf]

/-- Witness for the amended C7: expired credential at time 1000 with
expiry second 1, unknown subject, empty user table. -/
theorem c7_auth_failure_distinguishable_witness :
    authMiddleware true Credential.malformed 2000 [] false
      = Except.error ⟨401, "Invalid token"⟩
    ∧ authMiddleware true (Credential.wellFormed "ghost" (some 1)) 2000 [] false
      = Except.error ⟨401, "Invalid token"⟩
    ∧ authMiddleware true (Credential.wellFormed "ghost" none) 2000 [] false
      = Except.error ⟨401, "User not found or inactive"⟩ :=
  c7_auth_failure_distinguishable 2000 [] "ghost" 1 false
    (by decide) rfl

/-- C8 counterexample: the credential resolves to the active principal
`exampleViewer`, but when the last-activity UPDATE fails the middleware
does not return the principal — the failure propagates to the global
error handler and the request dies with 500. -/
theorem c8_counterexample :
    authMiddleware true (Credential.wellFormed "u-viewer" none) 0
        [exampleViewer] true
      = Except.error ⟨500, "Internal server error"⟩ := by rfl

/-- C8 amended: the last-activity update is awaited with no error
handling, so resolution succeeds only when the update succeeds; when the
update fails the request fails with 500 instead of returning the already
resolved principal. -/
theorem c8_last_activity_not_best_effort (tok : Credential) (now : Nat)
    (users : List User) (sub : String) (user : User)
    (htok : verifyToken tok now = some sub)
    (hfind : users.find? (fun u => u.id == sub && u.active) = some user) :
    authMiddleware true tok now users false = Except.ok user
    ∧ authMiddleware true tok now users true
      = Except.error ⟨500, "Internal server error"⟩ := by
  constructor
  · simp [authMiddleware, htok, hfind]
  · simp [authMiddleware, htok, hfind]

/-- Witness for the amended C8 at the concrete viewer principal. -/
theorem c8_last_activity_not_best_effort_witness :
    authMiddleware true (Credential.wellFormed "u-viewer" none) 0
        [exampleViewer] false
      = Except.ok exampleViewer
    ∧ authMiddleware true (Credential.wellFormed "u-viewer" none) 0
        [exampleViewer] true
      = Except.error ⟨500, "Internal server error"⟩ :=
  c8_last_activity_not_best_effort (Credential.wellFormed "u-viewer" none) 0
    [exampleViewer] "u-viewer" exampleViewer rfl rfl

/-- C9 counterexample: a tenant created administratively with requested
status `trial` at time 0 stores a trial expiry of 15 days, not the
claimed creation time + 14 days. -/
theorem c9_counterexample :
    (adminCreateTenantRow "T5" 0 "Taller Nuevo" "t5@fixly.example" none
        "taller-nuevo" (some "trial") none none none).status = "trial"
    ∧ (adminCreateTenantRow "T5" 0 "Taller Nuevo" "t5@fixly.example" none
        "taller-nuevo" (some "trial") none none none).trial_ends_at
      = some (15 * 24 * 60 * 60 * 1000)
    ∧ some (15 * 24 * 60 * 60 * 1000) ≠ some (14 * 24 * 60 * 60 * 1000) := by
  refine ⟨by decide, by decide, by decide⟩

/-- C9 amended: only self-service signup stores creation + 14 days; the
administrative create route stores creation + 15 days when `trial` is
explicitly requested, and stores no expiry at all (NULL) when the status
field is omitted even though the status still defaults to `trial`. -/
theorem c9_trial_expiry_paths (tenantId businessName slug email : String)
    (phone : Option String) (newId aname aemail : String) (now : Nat)
    (bodyPlan : Option String) (mu ml : Option Nat) :
    ((signupTenantRow tenantId businessName slug email phone now).status = "trial"
      ∧ (signupTenantRow tenantId businessName slug email phone now).trial_ends_at
          = some (now + 14 * 24 * 60 * 60 * 1000))
    ∧ (adminCreateTenantRow newId now aname aemail phone slug (some "trial")
        bodyPlan mu ml).trial_ends_at = some (now + 15 * 24 * 60 * 60 * 1000)
    ∧ ((adminCreateTenantRow newId now aname aemail phone slug none
          bodyPlan mu ml).status = "trial"
      ∧ (adminCreateTenantRow newId now aname aemail phone slug none
          bodyPlan mu ml).trial_ends_at = none) := by
  refine ⟨⟨rfl, rfl⟩, ?_, rfl, rfl⟩
  simp [adminCreateTenantRow]

/-- C10: the refund handler is guarded by the prior status: when the
payment exists but its status is not `approved`, the request fails and
leaves both the payments table and the audit log untouched; when the
prior status is `approved` (and the acting principal holds
`payments:refund`), the row is set to `refunded` and exactly one audit
record `payment.refunded` is appended, with before-snapshot
`status = approved` and after-snapshot `status = refunded` plus the
reason. -/
theorem c10_refund_guard (ctx : ReqContext) (aid : String) (now : Nat)
    (id reason : String) (st : PaymentsState) (p : Payment)
    (hfind : st.payments.find? (fun q => q.id = id) = some p) :
    (p.status ≠ "approved" →
        (refundPayment ctx aid now id reason st).1 ≠ RefundResult.success
        ∧ (refundPayment ctx aid now id reason st).2 = st)
    ∧ (∀ user, ctx.user? = some user →
        "payments:refund" ∈ rolePermissions user.role →
        p.status = "approved" →
        refundPayment ctx aid now id reason st
          = (RefundResult.success,
             { payments := st.payments.map (fun q =>
                 if q.id = id
                 then { q with status := "refunded", updated_at := now }
                 else q)
               audit_logs := st.audit_logs ++
                 [{ id := aid
                    tenant_id := user.tenant_id
                    user_id := user.id
                    user_name := user.name
                    user_email := user.email
                    action := "payment.refunded"
                    resource_type := "payment"
                    resource_id := some id
                    old_value := some [("status", "approved")]
                    new_value := some [("status", "refunded"), ("reason", reason)]
                    ip_address := ctx.ip?
                    user_agent := ctx.ua?
                    created_at := now }] })) := by
  constructor
  · intro hna
    cases hctx : ctx.user? with
    | none => simp [refundPayment, hctx]
    | some user =>
      cases hperm : requirePermission "payments:refund" (some user) with
      | pass => simp [refundPayment, hctx, hperm, hfind, hna]
      | unauthorized => simp [refundPayment, hctx, hperm]
      | forbidden r => simp [refundPayment, hctx, hperm]
  · intro user hctx hperm happ
    simp [refundPayment, hctx, requirePermission, hperm, hfind, happ,
      createAuditLog]

/-- Witness for C10: refunding the pending payment `p3` fails and leaves
the state unchanged. -/
theorem c10_refund_guard_witness :
    (refundPayment exampleSuperCtx "a-10" 9000 "p3" "duplicate charge"
        { payments := [examplePendingPayment], audit_logs := [] }).1
      ≠ RefundResult.success
    ∧ (refundPayment exampleSuperCtx "a-10" 9000 "p3" "duplicate charge"
        { payments := [examplePendingPayment], audit_logs := [] }).2
      = { payments := [examplePendingPayment], audit_logs := [] } :=
  (c10_refund_guard exampleSuperCtx "a-10" 9000 "p3" "duplicate charge"
      { payments := [examplePendingPayment], audit_logs := [] }
      examplePendingPayment rfl).1 (by decide)
